import Mathlib

/-
Verification of the symbolic tensor/operation node model of
`include/tvm/tensor.h` (dataflow tensor objects: `Tensor`, `Operation`,
`TensorNode`, `OperationNode`, the `Slice` indexing protocol and the
operator-overload sugar layer).

Shallow embedding notes.  The node substrate (shared, reference-counted,
type-tagged nodes with handle equality) is modelled, following the spec's
own design note, as nodes addressed by stable integer ids: a handle carries
its node id `hnd`, handle equality and hash are over the id.  Functions
whose bodies live outside this header (`Tensor::operator()(Array<Expr>)`,
`Operation::output`, `TensorNode::make`, the `NodeRef` equality and
`hash()`) are modelled from the spec, and each such definition says so in
its doc comment.  Everything else is translated directly from the header.
-/

namespace TVMTensor

/-- Element data type of a tensor (the external `Type` of the expression
layer, e.g. `Float(32)`): a type code, bit width and vector lanes. -/
structure DType where
  code : Nat
  bits : Nat
  lanes : Nat
deriving DecidableEq, Repr

/-- The dtype `Float(32)`, default of the input-tensor constructor. -/
def float32 : DType := ⟨2, 32, 1⟩

/-- The external scalar expression tree (`Expr` of the expression layer).
The header only consumes this type: it builds element-access expressions
from a tensor and index expressions, and delegates the `Slice` operator
sugar to the expression-level operators, which we model as constructors.
`access t indices` is the element-access node produced by indexing the
tensor whose node handle is `t` with `indices` (modelled from the spec:
"builds an element-access expression from a tensor and a sequence of
index expressions"). -/
inductive Expr where
  | var : String → Expr
  | intImm : Int → Expr
  | notE : Expr → Expr
  | negE : Expr → Expr
  | add : Expr → Expr → Expr
  | sub : Expr → Expr → Expr
  | mul : Expr → Expr → Expr
  | div : Expr → Expr → Expr
  | mod : Expr → Expr → Expr
  | eqE : Expr → Expr → Expr
  | leE : Expr → Expr → Expr
  | geE : Expr → Expr → Expr
  | neE : Expr → Expr → Expr
  | andE : Expr → Expr → Expr
  | orE : Expr → Expr → Expr
  | shr : Expr → Expr → Expr
  | shl : Expr → Expr → Expr
  | gtE : Expr → Expr → Expr
  | ltE : Expr → Expr → Expr
  | access : Nat → List Expr → Expr
deriving Repr

/-- The abstract `OperationNode` contract (`tensor.h`, `class
OperationNode`): a name plus the pure-virtual output contract
`num_outputs()`, `output_name(i)`, `output_dtype(i)`, `output_shape(i)`.
A concrete operation kind supplies these; `root_iter_vars()` is opaque to
this core and not needed by any claim, so it is not modelled. -/
structure OperationNode where
  name : String
  num_outputs : Nat
  output_name : Nat → String
  output_dtype : Nat → DType
  output_shape : Nat → List Expr

/-- An `Operation` handle (`class Operation : public NodeRef`): a node id
(the shared node's identity) together with the node it points to.  A
default-constructed null handle does not arise in any claim, so a handle
always points at a node here. -/
structure Operation where
  hnd : Nat
  node : OperationNode

/-- Modelled from the spec: the `NodeRef` equality operator inherited by
`Operation` is outside this header; "identity equality is pointer/handle
equality, not structural equality" — equality is over the node id. -/
def Operation.sameAs (a b : Operation) : Bool :=
  a.hnd == b.hnd

/-- Modelled from the spec: `NodeRef::hash`, inherited by `Operation`, is
outside this header; the spec requires a handle-based O(1) hash consistent
with handle equality — the node id itself. -/
def Operation.hash (a : Operation) : Nat :=
  a.hnd

/-- Source `std::hash<::tvm::Operation>::operator()` from the header:
returns `k.hash()`. -/
def stdHashOperation (k : Operation) : Nat :=
  k.hash

/-- A `Tensor` handle (`class Tensor : public FunctionRef`) together with
the `TensorNode` payload it points to: shape, optional name, dtype, the
source operation (`none` models the null `Operation()` handle) and the
output index `value_index` (`int`, default 0). -/
structure Tensor where
  hnd : Nat
  shape : List Expr
  name : String
  dtype : DType
  op : Option Operation
  value_index : Int

/-- Modelled from the spec: the body of `TensorNode::make(shape, name,
dtype, op, value_index)` is outside this header; the factory allocates a
fresh node (its id is the explicit `hnd` argument in the arena model) and
fills the five fields.  "No further validation is mandated by this
core." -/
def TensorNode.make (hnd : Nat) (shape : List Expr) (name : String)
    (dtype : DType) (op : Option Operation) (value_index : Int) : Tensor :=
  ⟨hnd, shape, name, dtype, op, value_index⟩

/-- Source `Tensor::ndim()`: `(*this)->shape.size()`. -/
def Tensor.ndim (t : Tensor) : Nat :=
  t.shape.length

/-- Source `TensorNode::outputs()`: `return 1;`. -/
def TensorNode.outputs (_t : Tensor) : Int :=
  1

/-- Modelled from the spec: the body of `Tensor::operator()(Array<Expr>
indices)` is outside this header; it "builds an element-access expression
from a tensor and a sequence of index expressions" and "this core does
not enforce `indices.size() == rank()`" — so it is total in the index
list and produces the access node for this tensor's handle. -/
def Tensor.call (t : Tensor) (indices : List Expr) : Expr :=
  Expr.access t.hnd indices

/-- Source `Tensor::Slice`: a slice that fixes the first k coordinates,
holding the tensor and the accumulated index vector. -/
structure Slice where
  tensor : Tensor
  indices : List Expr

/-- Source `Tensor::Slice::operator[](Expr i)`: copies the accumulated indices
(`std::vector<Expr> other = indices_`), appends `i` (`emplace_back`) and
returns a new `Slice(tensor_, other)`. -/
def Slice.getIndex (s : Slice) (i : Expr) : Slice :=
  ⟨s.tensor, s.indices ++ [i]⟩

/-- Source `Tensor::Slice::operator Expr()`: `return tensor_(indices_);`. -/
def Slice.toExpr (s : Slice) : Expr :=
  s.tensor.call s.indices

/-- Source `Tensor::operator[](Expr i)`: `return Slice(*this, \x7bi\x7d);`. -/
def Tensor.getIndex (t : Tensor) (i : Expr) : Slice :=
  ⟨t, [i]⟩

/-- The chained partial indexing `t[i0][i1]...[ik]` as an expression:
start with `Tensor::operator[]` on the first index, fold
`Slice::operator[]` over the rest, and convert the final `Slice` via
`operator Expr()`. -/
def chainedIndex (t : Tensor) (i : Expr) (rest : List Expr) : Expr :=
  (rest.foldl Slice.getIndex (t.getIndex i)).toExpr

/-- Modelled from the spec: the body of `Operation::output(size_t i)` is
outside this header; `output(i)` "returns the Tensor handle representing
output slot `i`" with `op == o`, `value_index == i`, shape/name/dtype
taken from the operation's output contract, and "`output(i)` with
`i ≥ num_outputs()` is a contract violation (fails with an out-of-range
error)" producing no Tensor.  `fresh` is the arena id of the newly
allocated tensor node. -/
def Operation.output (fresh : Nat) (o : Operation) (i : Nat) :
    Except String Tensor :=
  if i < o.node.num_outputs then
    Except.ok (TensorNode.make fresh (o.node.output_shape i)
      (o.node.output_name i) (o.node.output_dtype i) (some o) (Int.ofNat i))
  else
    Except.error "Operation output index out of range"

/-- Source macro `DEFINE_OVERLOAD_SLICE_UNARY_OP(Op)`: the generated overload converts
the slice and applies the expression-level operator. -/
def sliceUnaryOp (op : Expr → Expr) (a : Slice) : Expr :=
  op a.toExpr

/-- Source macro `DEFINE_OVERLOAD_SLICE_BINARY_OP(Op)`, slice-slice form: both
operands are converted, then the expression-level operator applies. -/
def sliceBinaryOp (op : Expr → Expr → Expr) (a b : Slice) : Expr :=
  op a.toExpr b.toExpr

/-- Source macro `DEFINE_OVERLOAD_SLICE_BINARY_OP(Op)`, form
`operator Op (const Tensor::Slice& a, const T& b)`: the slice is
converted, the non-slice operand `b` passes through unchanged. -/
def sliceBinaryOpL (op : Expr → Expr → Expr) (a : Slice) (b : Expr) : Expr :=
  op a.toExpr b

/-- Source macro `DEFINE_OVERLOAD_SLICE_BINARY_OP(Op)`, form
`operator Op (const T& a, const Tensor::Slice& b)`: the slice is
converted, the non-slice operand `a` passes through unchanged. -/
def sliceBinaryOpR (op : Expr → Expr → Expr) (a : Expr) (b : Slice) : Expr :=
  op a b.toExpr

/-- Demo two-output operation used by the closed witnesses: node id 7,
`num_outputs() == 2`, output `i` has shape `[10 * (i + 1)]`. -/
def demoOpNode : OperationNode :=
  ⟨"demo", 2, fun _ => "out", fun _ => float32,
    fun i => [Expr.intImm (Int.ofNat (10 * (i + 1)))]⟩

/-- A handle to the demo operation node. -/
def demoOp : Operation := ⟨7, demoOpNode⟩

/-- A second handle to the same underlying node (same node id), as produced
by copying the first handle. -/
def demoOp2 : Operation := ⟨7, demoOpNode⟩

/-- Demo rank-2 placeholder tensor with shape `[10, 20]` and no producing
operation. -/
def demoTensor : Tensor :=
  TensorNode.make 11 [Expr.intImm 10, Expr.intImm 20] "A" float32 none 0

/-- Demo rank-0 tensor (empty shape). -/
def demoScalar : Tensor :=
  TensorNode.make 12 [] "s" float32 none 0

/-- Demo tensor produced by the two-output demo operation (output slot 0). -/
def demoOutTensor : Tensor :=
  TensorNode.make 13 [Expr.intImm 10] "out" float32 (some demoOp) 0

/-- Folding `Slice::operator[]` over a list of indices keeps the tensor and
appends the indices, in order, to the accumulated vector. -/
theorem foldl_getIndex (rest : List Expr) (s : Slice) :
    rest.foldl Slice.getIndex s = ⟨s.tensor, s.indices ++ rest⟩ := by
  induction rest generalizing s with
  | nil => simp
  | cons j rest ih => simp [Slice.getIndex, ih]

/-- C1: for every tensor `t` and every nonempty index sequence
`i :: rest`, the chained partial indexing `t[i][rest...]` built through
`Tensor::operator[]`, `Slice::operator[]` and the final conversion
`Slice::operator Expr()` produces the same access expression as calling
`t`'s indexing operator directly with the full index list — for sequences
of any length, not only three. -/
theorem chained_index_eq_direct_call (t : Tensor) (i : Expr)
    (rest : List Expr) :
    chainedIndex t i rest = t.call (i :: rest) := by
  simp [chainedIndex, foldl_getIndex, Tensor.getIndex, Slice.toExpr]

/-- C2: for every operation `o` and index `i < o.num_outputs()`, the
tensor returned by `o.output(i)` has its `op` field equal by handle
equality to `o` and its `value_index` field equal to `i`. -/
theorem output_op_and_value_index (fresh : Nat) (o : Operation) (i : Nat)
    (h : i < o.node.num_outputs) :
    ∃ t, Operation.output fresh o i = Except.ok t ∧
      (∃ p, t.op = some p ∧ p.sameAs o = true) ∧
      t.value_index = Int.ofNat i := by
  refine ⟨TensorNode.make fresh (o.node.output_shape i)
    (o.node.output_name i) (o.node.output_dtype i) (some o) (Int.ofNat i),
    ?_, ⟨o, rfl, ?_⟩, rfl⟩
  · simp [Operation.output, h]
  · simp [Operation.sameAs]

/-- Closed witness for C2: slot 0 of the two-output demo operation. -/
theorem output_op_and_value_index_witness :
    0 < demoOp.node.num_outputs ∧
    (∃ t, Operation.output 3 demoOp 0 = Except.ok t ∧
      (∃ p, t.op = some p ∧ p.sameAs demoOp = true) ∧
      t.value_index = Int.ofNat 0) :=
  ⟨Nat.zero_lt_succ 1, output_op_and_value_index 3 demoOp 0 (Nat.zero_lt_succ 1)⟩

/-- C3: for every operation `o` and index `i ≥ o.num_outputs()`,
`o.output(i)` fails with an out-of-range error and yields no tensor. -/
theorem output_out_of_range (fresh : Nat) (o : Operation) (i : Nat)
    (h : o.node.num_outputs ≤ i) :
    Operation.output fresh o i =
      Except.error "Operation output index out of range" := by
  simp [Operation.output, Nat.not_lt.mpr h]

/-- Closed witness for C3: `o.output(5)` where `num_outputs() == 2`. -/
theorem output_out_of_range_witness :
    demoOp.node.num_outputs ≤ 5 ∧
    Operation.output 3 demoOp 5 =
      Except.error "Operation output index out of range" :=
  ⟨by decide, output_out_of_range 3 demoOp 5 (by decide)⟩

/-- C4: deriving `s2 = s1[j]` from `s1 = t[i]` copies the accumulated
index sequence into the new slice (appending `j`) and leaves unchanged
what `s1` converts to: `s1`'s conversion is still the access expression
of `t` at `[i]`. -/
theorem slice_non_mutation (t : Tensor) (i j : Expr) :
    ((t.getIndex i).getIndex j).tensor = (t.getIndex i).tensor ∧
    ((t.getIndex i).getIndex j).indices = (t.getIndex i).indices ++ [j] ∧
    (t.getIndex i).toExpr = t.call [i] := by
  exact ⟨rfl, rfl, rfl⟩

/-- C5: every overloaded operator on `Slice` (unary `!`, `-`, binary `+`,
`-`, `*`, `/`, `%`, `==`, `<=`, `>=`, `!=`, `&&`, `||`, `>>`, `<<`, `>`,
`<`) equals the corresponding expression-level operator applied after
converting each `Slice` operand to its access expression, with non-slice
operands passed through unchanged. -/
theorem slice_operator_sugar (a b : Slice) (x : Expr) :
    sliceUnaryOp Expr.notE a = Expr.notE a.toExpr ∧
    sliceUnaryOp Expr.negE a = Expr.negE a.toExpr ∧
    sliceBinaryOp Expr.add a b = Expr.add a.toExpr b.toExpr ∧
    sliceBinaryOpL Expr.add a x = Expr.add a.toExpr x ∧
    sliceBinaryOpR Expr.add x b = Expr.add x b.toExpr ∧
    sliceBinaryOp Expr.sub a b = Expr.sub a.toExpr b.toExpr ∧
    sliceBinaryOpL Expr.sub a x = Expr.sub a.toExpr x ∧
    sliceBinaryOpR Expr.sub x b = Expr.sub x b.toExpr ∧
    sliceBinaryOp Expr.mul a b = Expr.mul a.toExpr b.toExpr ∧
    sliceBinaryOpL Expr.mul a x = Expr.mul a.toExpr x ∧
    sliceBinaryOpR Expr.mul x b = Expr.mul x b.toExpr ∧
    sliceBinaryOp Expr.div a b = Expr.div a.toExpr b.toExpr ∧
    sliceBinaryOpL Expr.div a x = Expr.div a.toExpr x ∧
    sliceBinaryOpR Expr.div x b = Expr.div x b.toExpr ∧
    sliceBinaryOp Expr.mod a b = Expr.mod a.toExpr b.toExpr ∧
    sliceBinaryOpL Expr.mod a x = Expr.mod a.toExpr x ∧
    sliceBinaryOpR Expr.mod x b = Expr.mod x b.toExpr ∧
    sliceBinaryOp Expr.eqE a b = Expr.eqE a.toExpr b.toExpr ∧
    sliceBinaryOpL Expr.eqE a x = Expr.eqE a.toExpr x ∧
    sliceBinaryOpR Expr.eqE x b = Expr.eqE x b.toExpr ∧
    sliceBinaryOp Expr.leE a b = Expr.leE a.toExpr b.toExpr ∧
    sliceBinaryOpL Expr.leE a x = Expr.leE a.toExpr x ∧
    sliceBinaryOpR Expr.leE x b = Expr.leE x b.toExpr ∧
    sliceBinaryOp Expr.geE a b = Expr.geE a.toExpr b.toExpr ∧
    sliceBinaryOpL Expr.geE a x = Expr.geE a.toExpr x ∧
    sliceBinaryOpR Expr.geE x b = Expr.geE x b.toExpr ∧
    sliceBinaryOp Expr.neE a b = Expr.neE a.toExpr b.toExpr ∧
    sliceBinaryOpL Expr.neE a x = Expr.neE a.toExpr x ∧
    sliceBinaryOpR Expr.neE x b = Expr.neE x b.toExpr ∧
    sliceBinaryOp Expr.andE a b = Expr.andE a.toExpr b.toExpr ∧
    sliceBinaryOpL Expr.andE a x = Expr.andE a.toExpr x ∧
    sliceBinaryOpR Expr.andE x b = Expr.andE x b.toExpr ∧
    sliceBinaryOp Expr.orE a b = Expr.orE a.toExpr b.toExpr ∧
    sliceBinaryOpL Expr.orE a x = Expr.orE a.toExpr x ∧
    sliceBinaryOpR Expr.orE x b = Expr.orE x b.toExpr ∧
    sliceBinaryOp Expr.shr a b = Expr.shr a.toExpr b.toExpr ∧
    sliceBinaryOpL Expr.shr a x = Expr.shr a.toExpr x ∧
    sliceBinaryOpR Expr.shr x b = Expr.shr x b.toExpr ∧
    sliceBinaryOp Expr.shl a b = Expr.shl a.toExpr b.toExpr ∧
    sliceBinaryOpL Expr.shl a x = Expr.shl a.toExpr x ∧
    sliceBinaryOpR Expr.shl x b = Expr.shl x b.toExpr ∧
    sliceBinaryOp Expr.gtE a b = Expr.gtE a.toExpr b.toExpr ∧
    sliceBinaryOpL Expr.gtE a x = Expr.gtE a.toExpr x ∧
    sliceBinaryOpR Expr.gtE x b = Expr.gtE x b.toExpr ∧
    sliceBinaryOp Expr.ltE a b = Expr.ltE a.toExpr b.toExpr ∧
    sliceBinaryOpL Expr.ltE a x = Expr.ltE a.toExpr x ∧
    sliceBinaryOpR Expr.ltE x b = Expr.ltE x b.toExpr := by
  exact ⟨rfl, rfl, rfl, rfl, rfl, rfl, rfl, rfl, rfl, rfl, rfl, rfl, rfl,
    rfl, rfl, rfl, rfl, rfl, rfl, rfl, rfl, rfl, rfl, rfl, rfl, rfl, rfl,
    rfl, rfl, rfl, rfl, rfl, rfl, rfl, rfl, rfl, rfl, rfl, rfl, rfl, rfl,
    rfl, rfl, rfl, rfl, rfl, rfl⟩

/-- C6: operation handles with the same underlying node compare equal
under handle equality and hash equal under `std::hash<tvm::Operation>`;
nothing forces structurally identical but separately constructed nodes to
compare equal. -/
theorem operation_handle_eq_hash (a b : Operation) (h : a.hnd = b.hnd) :
    a.sameAs b = true ∧ stdHashOperation a = stdHashOperation b := by
  constructor
  · simp [Operation.sameAs, h]
  · simp [stdHashOperation, Operation.hash, h]

/-- Closed witness for C6: two handles to node 7. -/
theorem operation_handle_eq_hash_witness :
    demoOp.hnd = demoOp2.hnd ∧
    (demoOp.sameAs demoOp2 = true ∧
      stdHashOperation demoOp = stdHashOperation demoOp2) :=
  ⟨rfl, operation_handle_eq_hash demoOp demoOp2 rfl⟩

/-- C7: the tensor built by `TensorNode::make(shape, name, dtype,
empty-op, 0)` has `ndim()` equal to `shape.size()`. -/
theorem make_ndim_eq_shape_size (hnd : Nat) (shape : List Expr)
    (name : String) (dtype : DType) :
    (TensorNode.make hnd shape name dtype none 0).ndim = shape.length :=
  rfl

/-- C8: `Tensor::operator()` accepts an index sequence of any length,
including one different from the tensor's rank, and builds the access
expression with no arity check at this layer. -/
theorem call_no_arity_check (t : Tensor) (indices : List Expr)
    (_h : indices.length ≠ t.ndim) :
    t.call indices = Expr.access t.hnd indices :=
  rfl

/-- Closed witness for C8: three indices supplied to a rank-2 tensor. -/
theorem call_no_arity_check_witness :
    [Expr.var "i", Expr.var "j", Expr.var "k"].length ≠ demoTensor.ndim ∧
    demoTensor.call [Expr.var "i", Expr.var "j", Expr.var "k"] =
      Expr.access demoTensor.hnd [Expr.var "i", Expr.var "j", Expr.var "k"] :=
  ⟨by decide,
   call_no_arity_check demoTensor [Expr.var "i", Expr.var "j", Expr.var "k"]
     (by decide)⟩

/-- C9: for a rank-0 tensor (empty shape), calling the indexing operator
directly with the empty index list is well defined and yields the
tensor's access expression. -/
theorem rank0_empty_call (t : Tensor) (_h : t.shape = []) :
    t.call [] = Expr.access t.hnd [] :=
  rfl

/-- Closed witness for C9: the rank-0 demo tensor. -/
theorem rank0_empty_call_witness :
    demoScalar.shape = [] ∧
    demoScalar.call [] = Expr.access demoScalar.hnd [] :=
  ⟨rfl, rank0_empty_call demoScalar rfl⟩

/-- C10: `TensorNode::outputs()` returns 1 for every tensor node, even
when the producing operation declares a different `num_outputs()`. -/
theorem tensornode_outputs_one (t : Tensor) (o : Operation)
    (_h : t.op = some o) :
    TensorNode.outputs t = 1 :=
  rfl

/-- Closed witness for C10: the output tensor of the two-output demo
operation still reports a single output. -/
theorem tensornode_outputs_one_witness :
    demoOutTensor.op = some demoOp ∧ TensorNode.outputs demoOutTensor = 1 :=
  ⟨rfl, tensornode_outputs_one demoOutTensor demoOp rfl⟩

end TVMTensor
